import Mathlib

/-!
Shallow embedding of the `carbonintensity` Go package (a client for the UK
national grid carbon intensity REST API) and proofs about its response
decoding and parameter validation.

Modelling conventions:

* A JSON value decoded by Go's `encoding/json` into `interface{}` is the
  inductive `JsonVal`.  JSON numbers (decoded by Go into `float64`) are
  modelled as `Int`: every numeric value the decoders consume is converted
  with `int(v.(float64))`, and all values the API deals in are integral
  gCO2/kWh figures, on which that conversion is exact truncation.
* A Go `map[string]interface{}` is an association list with first-match
  lookup (Go maps have unique keys, so any lookup agrees).  A Go map index
  `m["k"]` yields the nil interface both when the key is absent and when the
  stored value is JSON null; `goIsNil` captures that test.
* A failed Go type assertion `v.(T)` panics.  Computations that can panic
  live in `PanicOr`, with `.panicked` marking the runtime fault.
* `time.Time` values flowing through the decoders are `GoTime` records of
  the parsed calendar components; `time.Parse` with the fixed layout
  `2006-01-02T15:04Z07:00` is modelled by `parseNatGridTime`.
* `time.Time` / `time.Duration` values used only by range validation are
  modelled as `Int` nanoseconds: `from.Before(to)` is `fromT < toT` and
  `to.Sub(from)` is `toT - fromT`.  `int(d.Hours())` truncates toward zero,
  which on every representable duration equals `Int.tdiv` by an hour's
  nanoseconds.
* The HTTP transport is external: each `Get...` operation is split into the
  validation performed before the network call (`...validate`, where `.ok ()`
  means control reaches the HTTP GET) and the processing of the transport's
  response body (`...onBody`).
-/

/-- A JSON value as decoded by Go `encoding/json` into `interface{}`. -/
inductive JsonVal : Type where
  | null : JsonVal
  | bool (b : Bool) : JsonVal
  | num (n : Int) : JsonVal
  | str (s : String) : JsonVal
  | arr (xs : List JsonVal) : JsonVal
  | obj (fields : List (String × JsonVal)) : JsonVal

/-- Lookup in a decoded Go map (`m[k]`), `none` when the key is absent. -/
def lookupGo (fields : List (String × JsonVal)) (key : String) : Option JsonVal :=
  match fields with
  | [] => none
  | (k, v) :: rest => if k = key then some v else lookupGo rest key

/-- The Go test `m[k] == nil`: true when the key is absent or its value is
JSON null (both decode to the nil interface). -/
def goIsNil (v : Option JsonVal) : Bool :=
  match v with
  | none => true
  | some .null => true
  | some _ => false

/-- Result of a Go computation that may panic (failed type assertion). -/
inductive PanicOr (α : Type) : Type where
  | panicked : PanicOr α
  | ok (val : α) : PanicOr α

/-- Errors returned by the package, one constructor per `fmt.Errorf` site. -/
inductive GoError : Type where
  | jsonSyntax : GoError
  | malformedResponse (raw : JsonVal) : GoError
  | apiError (code message : String) : GoError
  | invalidSettlementPeriod (p : Int) : GoError
  | invalidRange (fromT toT : Int) : GoError
  | rangeTooLarge (fromT toT : Int) : GoError
  | invalidBlockSize (blockSize : Int) : GoError
  | unexpectedEntryCount (raw : JsonVal) : GoError

/-- Calendar components of a `time.Time` produced by `time.Parse` with the
layout `2006-01-02T15:04Z07:00` (minute precision, offset in minutes). -/
structure GoTime : Type where
  year : Int
  month : Int
  day : Int
  hour : Int
  minute : Int
  offsetMinutes : Int
deriving DecidableEq

/-- Numeric value of a decimal digit character. -/
def digitVal (c : Char) : Option Int :=
  if c.isDigit then some ((c.toNat : Int) - 48) else none

/-- Two decimal digit characters as a number. -/
def twoDigits (a b : Char) : Option Int := do
  let x ← digitVal a
  let y ← digitVal b
  pure (10 * x + y)

/-- Zone suffix of the layout `Z07:00`: either `Z` (UTC) or a signed
numeric offset `±hh:mm`, returned in minutes east of UTC. -/
def parseZone (cs : List Char) : Option Int :=
  match cs with
  | ['Z'] => some 0
  | [sign, z1, z2, ':', z3, z4] => do
    let zh ← twoDigits z1 z2
    let zm ← twoDigits z3 z4
    match sign with
    | '+' => some (60 * zh + zm)
    | '-' => some (-(60 * zh + zm))
    | _ => none
  | _ => none

/-- Gregorian leap year rule used by Go's `time` package. -/
def isLeapYear (y : Int) : Bool :=
  y % 4 = 0 && (y % 100 ≠ 0 || y % 400 = 0)

/-- Number of days in a month, as validated by `time.Parse`. -/
def daysInMonth (m y : Int) : Int :=
  if m = 2 then (if isLeapYear y then 29 else 28)
  else if m = 4 || m = 6 || m = 9 || m = 11 then 30
  else 31

/-- Model of Go `time.Parse(natGridTimeFormat, s)` for the fixed layout
`2006-01-02T15:04Z07:00`: four-digit year, two-digit month/day/hour/minute
with the literal separators, then the zone; month, day (within the month),
hour and minute are range-checked as Go's parser does.  `none` models the
non-nil error return. -/
def parseNatGridTime (s : String) : Option GoTime :=
  match s.data with
  | y1 :: y2 :: y3 :: y4 :: s1 :: m1 :: m2 :: s2 :: d1 :: d2 :: s3 :: h1 :: h2 :: s4 :: n1 :: n2 :: zone =>
    if s1 = '-' && s2 = '-' && s3 = 'T' && s4 = ':' then do
      let yh ← twoDigits y1 y2
      let yl ← twoDigits y3 y4
      let month ← twoDigits m1 m2
      let day ← twoDigits d1 d2
      let hour ← twoDigits h1 h2
      let minute ← twoDigits n1 n2
      let off ← parseZone zone
      let year := 100 * yh + yl
      if 1 ≤ month && month ≤ 12 && 1 ≤ day && day ≤ daysInMonth month year
          && hour ≤ 23 && minute ≤ 59 then
        some ⟨year, month, day, hour, minute, off⟩
      else none
    else none
  | _ => none

/-- The `Intensity` record (`From`, `To`, `Forecast`, `Actual`, `Index`). -/
structure Intensity : Type where
  From : GoTime
  To : GoTime
  Forecast : Int
  Actual : Int
  Index : String
deriving DecidableEq

instance : Inhabited Intensity :=
  ⟨⟨⟨1, 1, 1, 0, 0, 0⟩, ⟨1, 1, 1, 0, 0, 0⟩, 0, 0, ""⟩⟩

/-- The `Statistics` record (`From`, `To`, `Max`, `Average`, `Min`, `Index`). -/
structure Statistics : Type where
  From : GoTime
  To : GoTime
  Max : Int
  Average : Int
  Min : Int
  Index : String
deriving DecidableEq

instance : Inhabited Statistics :=
  ⟨⟨⟨1, 1, 1, 0, 0, 0⟩, ⟨1, 1, 1, 0, 0, 0⟩, 0, 0, 0, ""⟩⟩

/-- The `IntensityFactors` record: one emission factor per fuel type. -/
structure IntensityFactors : Type where
  Biomass : Int
  Coal : Int
  DutchImports : Int
  FrenchImports : Int
  IrishImports : Int
  GasCombinedCycle : Int
  GasOpenCycle : Int
  Hydro : Int
  Nuclear : Int
  Oil : Int
  Other : Int
  PumpedStorage : Int
  Solar : Int
  Wind : Int
deriving DecidableEq

/-- `unmarshalInt(val, valIfNil)`: the nil interface (absent key or JSON
null) yields the default; otherwise `int(val.(float64))`, which panics
when the value is not a number. -/
def unmarshalInt (val : Option JsonVal) (valIfNil : Int) : PanicOr Int :=
  match val with
  | none => .ok valIfNil
  | some .null => .ok valIfNil
  | some (.num n) => .ok n
  | some _ => .panicked

/-- Outcome of one iteration of a decode loop body: a type-assertion
panic, a timestamp-parse failure (the loop's early `return nil`), or a
decoded record. -/
inductive EntryStep (α : Type) : Type where
  | panicked : EntryStep α
  | parseFail : EntryStep α
  | ok (e : α) : EntryStep α

/-- Body of the loop in `intensityResponse.UnmarshalJSON` for one element
of the `data` array: assert it is an object, assert `to` and `from` are
strings and parse them (a parse error is `parseFail`, the source's
`return nil`), assert `intensity` is an object, read `forecast`/`actual`
through `unmarshalInt` with default `-1`, and assert `index` is a string. -/
def decodeIntensityEntryStep (value : JsonVal) : EntryStep Intensity :=
  match value with
  | .obj decodedDataEntry =>
    match lookupGo decodedDataEntry "to" with
    | some (.str toS) =>
      match parseNatGridTime toS with
      | none => .parseFail
      | some toTime =>
        match lookupGo decodedDataEntry "from" with
        | some (.str fromS) =>
          match parseNatGridTime fromS with
          | none => .parseFail
          | some fromTime =>
            match lookupGo decodedDataEntry "intensity" with
            | some (.obj decodedIntensity) =>
              match unmarshalInt (lookupGo decodedIntensity "forecast") (-1) with
              | .panicked => .panicked
              | .ok forecast =>
                match unmarshalInt (lookupGo decodedIntensity "actual") (-1) with
                | .panicked => .panicked
                | .ok actual =>
                  match lookupGo decodedIntensity "index" with
                  | some (.str idx) => .ok ⟨fromTime, toTime, forecast, actual, idx⟩
                  | _ => .panicked
            | _ => .panicked
        | _ => .panicked
    | _ => .panicked
  | _ => .panicked

/-- The `for` loop of `intensityResponse.UnmarshalJSON` over the decoded
`data` array, accumulating `ir.entries`.  On a timestamp parse failure the
source returns a nil error, so the loop yields the entries appended so far
as a success. -/
def decodeIntensityLoop (entries : List JsonVal) (acc : List Intensity) :
    PanicOr (List Intensity) :=
  match entries with
  | [] => .ok acc
  | value :: rest =>
    match decodeIntensityEntryStep value with
    | .panicked => .panicked
    | .parseFail => .ok acc
    | .ok e => decodeIntensityLoop rest (acc ++ [e])

/-- `intensityResponse.UnmarshalJSON` applied to the decoded JSON body.
A non-object body makes the initial `json.Unmarshal` into a map return an
error.  Then: `data` nil and `error` nil is the malformed-response error;
`data` nil and `error` non-nil is the API error built from `error.code`
and `error.message` (type assertions, so a panic when they are not
strings); otherwise `data` is asserted to be an array and decoded by the
loop. -/
def intensityResponse.UnmarshalJSON (body : JsonVal) :
    PanicOr (Except GoError (List Intensity)) :=
  match body with
  | .obj decoded =>
    if goIsNil (lookupGo decoded "data") then
      if goIsNil (lookupGo decoded "error") then
        .ok (.error (.malformedResponse (.obj decoded)))
      else
        match lookupGo decoded "error" with
        | some (.obj errorMap) =>
          match lookupGo errorMap "code" with
          | some (.str code) =>
            match lookupGo errorMap "message" with
            | some (.str message) => .ok (.error (.apiError code message))
            | _ => .panicked
          | _ => .panicked
        | _ => .panicked
    else
      match lookupGo decoded "data" with
      | some (.arr decodedData) =>
        match decodeIntensityLoop decodedData [] with
        | .panicked => .panicked
        | .ok es => .ok (.ok es)
      | _ => .panicked
  | _ => .ok (.error .jsonSyntax)

/-- Body of the loop in `statisticsResponse.UnmarshalJSON` for one element
of the `data` array, reading `max`/`average`/`min` through `unmarshalInt`
with default `-1`. -/
def decodeStatisticsEntryStep (value : JsonVal) : EntryStep Statistics :=
  match value with
  | .obj decodedDataEntry =>
    match lookupGo decodedDataEntry "to" with
    | some (.str toS) =>
      match parseNatGridTime toS with
      | none => .parseFail
      | some toTime =>
        match lookupGo decodedDataEntry "from" with
        | some (.str fromS) =>
          match parseNatGridTime fromS with
          | none => .parseFail
          | some fromTime =>
            match lookupGo decodedDataEntry "intensity" with
            | some (.obj decodedIntensity) =>
              match unmarshalInt (lookupGo decodedIntensity "max") (-1) with
              | .panicked => .panicked
              | .ok maxV =>
                match unmarshalInt (lookupGo decodedIntensity "average") (-1) with
                | .panicked => .panicked
                | .ok averageV =>
                  match unmarshalInt (lookupGo decodedIntensity "min") (-1) with
                  | .panicked => .panicked
                  | .ok minV =>
                    match lookupGo decodedIntensity "index" with
                    | some (.str idx) =>
                      .ok ⟨fromTime, toTime, maxV, averageV, minV, idx⟩
                    | _ => .panicked
            | _ => .panicked
        | _ => .panicked
    | _ => .panicked
  | _ => .panicked

/-- The `for` loop of `statisticsResponse.UnmarshalJSON`, accumulating
`sr.entries`; a timestamp parse failure again returns the partial list as
a success. -/
def decodeStatisticsLoop (entries : List JsonVal) (acc : List Statistics) :
    PanicOr (List Statistics) :=
  match entries with
  | [] => .ok acc
  | value :: rest =>
    match decodeStatisticsEntryStep value with
    | .panicked => .panicked
    | .parseFail => .ok acc
    | .ok e => decodeStatisticsLoop rest (acc ++ [e])

/-- `statisticsResponse.UnmarshalJSON` applied to the decoded JSON body;
same envelope handling as the intensity decoder. -/
def statisticsResponse.UnmarshalJSON (body : JsonVal) :
    PanicOr (Except GoError (List Statistics)) :=
  match body with
  | .obj decoded =>
    if goIsNil (lookupGo decoded "data") then
      if goIsNil (lookupGo decoded "error") then
        .ok (.error (.malformedResponse (.obj decoded)))
      else
        match lookupGo decoded "error" with
        | some (.obj errorMap) =>
          match lookupGo errorMap "code" with
          | some (.str code) =>
            match lookupGo errorMap "message" with
            | some (.str message) => .ok (.error (.apiError code message))
            | _ => .panicked
          | _ => .panicked
        | _ => .panicked
    else
      match lookupGo decoded "data" with
      | some (.arr decodedData) =>
        match decodeStatisticsLoop decodedData [] with
        | .panicked => .panicked
        | .ok es => .ok (.ok es)
      | _ => .panicked
  | _ => .ok (.error .jsonSyntax)

/-- Read one fuel-type key of the factor dictionary:
`int(factorDict[key].(float64))`, which panics when the key is absent
(nil interface) or its value is not a number. -/
def factorKey (factorDict : List (String × JsonVal)) (key : String) : PanicOr Int :=
  match lookupGo factorDict key with
  | some (.num n) => .ok n
  | _ => .panicked

/-- Decoding part of `GetIntensityFactors` applied to the response body:
generic unmarshal into a map, the same `data`/`error` envelope handling,
`data` asserted to be an array that must hold exactly one entry, that
entry asserted to be an object, and the fourteen fuel-type keys read by
exact string match in the source's field order. -/
def GetIntensityFactors.decode (body : JsonVal) :
    PanicOr (Except GoError IntensityFactors) :=
  match body with
  | .obj response =>
    if goIsNil (lookupGo response "data") then
      if goIsNil (lookupGo response "error") then
        .ok (.error (.malformedResponse (.obj response)))
      else
        match lookupGo response "error" with
        | some (.obj errorMap) =>
          match lookupGo errorMap "code" with
          | some (.str code) =>
            match lookupGo errorMap "message" with
            | some (.str message) => .ok (.error (.apiError code message))
            | _ => .panicked
          | _ => .panicked
        | _ => .panicked
    else
      match lookupGo response "data" with
      | some (.arr responseData) =>
        match responseData with
        | [entry] =>
          match entry with
          | .obj factorDict =>
            match factorKey factorDict "Biomass" with
            | .panicked => .panicked
            | .ok biomass =>
            match factorKey factorDict "Coal" with
            | .panicked => .panicked
            | .ok coal =>
            match factorKey factorDict "Dutch Imports" with
            | .panicked => .panicked
            | .ok dutch =>
            match factorKey factorDict "French Imports" with
            | .panicked => .panicked
            | .ok french =>
            match factorKey factorDict "Gas (Combined Cycle)" with
            | .panicked => .panicked
            | .ok gasCC =>
            match factorKey factorDict "Gas (Open Cycle)" with
            | .panicked => .panicked
            | .ok gasOC =>
            match factorKey factorDict "Hydro" with
            | .panicked => .panicked
            | .ok hydro =>
            match factorKey factorDict "Irish Imports" with
            | .panicked => .panicked
            | .ok irish =>
            match factorKey factorDict "Nuclear" with
            | .panicked => .panicked
            | .ok nuclear =>
            match factorKey factorDict "Oil" with
            | .panicked => .panicked
            | .ok oil =>
            match factorKey factorDict "Other" with
            | .panicked => .panicked
            | .ok other =>
            match factorKey factorDict "Pumped Storage" with
            | .panicked => .panicked
            | .ok pumped =>
            match factorKey factorDict "Solar" with
            | .panicked => .panicked
            | .ok solar =>
            match factorKey factorDict "Wind" with
            | .panicked => .panicked
            | .ok wind =>
              .ok (.ok ⟨biomass, coal, dutch, french, irish, gasCC, gasOC,
                hydro, nuclear, oil, other, pumped, solar, wind⟩)
          | _ => .panicked
        | _ => .ok (.error (.unexpectedEntryCount (.obj response)))
      | _ => .panicked
  | _ => .ok (.error .jsonSyntax)

/-- Nanoseconds in `time.Hour`. -/
def nsPerHour : Int := 3600 * 1000000000

/-- Nanoseconds in the maximum range `time.Hour * 24 * 30`. -/
def maxRangeNs : Int := nsPerHour * 24 * 30

/-- Validation of `GetIntensityBetween` before the network call:
`!from.Before(to)` fails with the invalid-range error, then a span above
30 days fails with the range-too-large error; `.ok ()` means control
reaches the HTTP GET. -/
def GetIntensityBetween.validate (fromT toT : Int) : Except GoError Unit :=
  if ¬ fromT < toT then .error (.invalidRange fromT toT)
  else if toT - fromT > nsPerHour * 24 * 30 then .error (.rangeTooLarge fromT toT)
  else .ok ()

/-- Validation of `GetStatistics` before the network call (the same two
checks as `GetIntensityBetween`). -/
def GetStatistics.validate (fromT toT : Int) : Except GoError Unit :=
  if ¬ fromT < toT then .error (.invalidRange fromT toT)
  else if toT - fromT > nsPerHour * 24 * 30 then .error (.rangeTooLarge fromT toT)
  else .ok ()

/-- The range checks of `GetStatisticsInBlocks` (its first two `if`s,
identical to the other two range-validated operations). -/
def GetStatisticsInBlocks.rangeCheck (fromT toT : Int) : Except GoError Unit :=
  if ¬ fromT < toT then .error (.invalidRange fromT toT)
  else if toT - fromT > nsPerHour * 24 * 30 then .error (.rangeTooLarge fromT toT)
  else .ok ()

/-- `int(blockSize.Hours())`: the duration in nanoseconds divided by an
hour's nanoseconds, truncated toward zero. -/
def blockSizeHoursOf (blockSize : Int) : Int := Int.tdiv blockSize nsPerHour

/-- Full validation of `GetStatisticsInBlocks` before the network call:
the range checks, then the block size truncated to whole hours must lie
in `[1, 24]`; `.ok ()` means control reaches the HTTP GET. -/
def GetStatisticsInBlocks.validate (fromT toT blockSize : Int) : Except GoError Unit :=
  match GetStatisticsInBlocks.rangeCheck fromT toT with
  | .error e => .error e
  | .ok () =>
    if blockSizeHoursOf blockSize < 1 ∨ blockSizeHoursOf blockSize > 24 then
      .error (.invalidBlockSize blockSize)
    else .ok ()

/-- Validation of `GetIntensityForDayAndSettlementPeriod` before the
network call: the settlement period must lie in `[1, 48]`. -/
def GetIntensityForDayAndSettlementPeriod.validate (settlementPeriod : Int) :
    Except GoError Unit :=
  if settlementPeriod < 1 ∨ settlementPeriod > 48 then
    .error (.invalidSettlementPeriod settlementPeriod)
  else .ok ()

/-- `GetIntensityForTimePeriod` applied to the transport's response body:
decode, then fail with the unexpected-entry-count error unless exactly one
entry was decoded, else return that entry. -/
def GetIntensityForTimePeriod.onBody (body : JsonVal) :
    PanicOr (Except GoError Intensity) :=
  match intensityResponse.UnmarshalJSON body with
  | .panicked => .panicked
  | .ok (.error e) => .ok (.error e)
  | .ok (.ok entries) =>
    match entries with
    | [e] => .ok (.ok e)
    | _ => .ok (.error (.unexpectedEntryCount body))

/-- `GetCurrentIntensity` applied to the transport's response body (same
singleton handling as `GetIntensityForTimePeriod`). -/
def GetCurrentIntensity.onBody (body : JsonVal) :
    PanicOr (Except GoError Intensity) :=
  match intensityResponse.UnmarshalJSON body with
  | .panicked => .panicked
  | .ok (.error e) => .ok (.error e)
  | .ok (.ok entries) =>
    match entries with
    | [e] => .ok (.ok e)
    | _ => .ok (.error (.unexpectedEntryCount body))

/-- `GetIntensityForDayAndSettlementPeriod` with the transport's response
body supplied: validate the settlement period first (before any network
call), then decode and apply the singleton check. -/
def GetIntensityForDayAndSettlementPeriod.onBody (settlementPeriod : Int)
    (body : JsonVal) : PanicOr (Except GoError Intensity) :=
  match GetIntensityForDayAndSettlementPeriod.validate settlementPeriod with
  | .error e => .ok (.error e)
  | .ok () =>
    match intensityResponse.UnmarshalJSON body with
    | .panicked => .panicked
    | .ok (.error e) => .ok (.error e)
    | .ok (.ok entries) =>
      match entries with
      | [e] => .ok (.ok e)
      | _ => .ok (.error (.unexpectedEntryCount body))

/-- `GetStatistics` with the transport's response body supplied: range
validation first (before any network call), then decode and apply the
singleton check. -/
def GetStatistics.onBody (fromT toT : Int) (body : JsonVal) :
    PanicOr (Except GoError Statistics) :=
  match GetStatistics.validate fromT toT with
  | .error e => .ok (.error e)
  | .ok () =>
    match statisticsResponse.UnmarshalJSON body with
    | .panicked => .panicked
    | .ok (.error e) => .ok (.error e)
    | .ok (.ok entries) =>
      match entries with
      | [e] => .ok (.ok e)
      | _ => .ok (.error (.unexpectedEntryCount body))

/-- The record the intensity loop body builds from a well-formed `data`
entry (used to state order preservation). -/
def intensityEntryOf (v : JsonVal) : Intensity :=
  match decodeIntensityEntryStep v with
  | .ok e => e
  | _ => default

/-- The record the statistics loop body builds from a well-formed `data`
entry. -/
def statisticsEntryOf (v : JsonVal) : Statistics :=
  match decodeStatisticsEntryStep v with
  | .ok e => e
  | _ => default

/-- A success envelope whose single entry has an unparseable `to`
timestamp. -/
def c1BadToBody : JsonVal := .obj [("data", .arr [.obj [
  ("from", .str "2018-01-20T12:00Z"), ("to", .str "not-a-timestamp"),
  ("intensity", .obj [("forecast", .num 50), ("actual", .num 49), ("index", .str "low")])]])]

/-- A success envelope with a well-formed first entry and a second entry
whose `from` timestamp fails to parse. -/
def c1PartialBody : JsonVal := .obj [("data", .arr [
  .obj [("from", .str "2018-01-20T12:00Z"), ("to", .str "2018-01-20T12:30Z"),
    ("intensity", .obj [("forecast", .num 50), ("actual", .num 49), ("index", .str "low")])],
  .obj [("from", .str "2018-99-20T12:30Z"), ("to", .str "2018-01-20T13:00Z"),
    ("intensity", .obj [("forecast", .num 51), ("actual", .num 48), ("index", .str "low")])]])]

/-- A statistics success envelope whose single entry has an unparseable
`from` timestamp. -/
def c1BadStatsBody : JsonVal := .obj [("data", .arr [.obj [
  ("from", .str "garbage"), ("to", .str "2018-01-20T13:00Z"),
  ("intensity", .obj [("max", .num 60), ("average", .num 55), ("min", .num 50),
    ("index", .str "moderate")])]])]

/-- Claim C1 (code bug): contrary to the stated behavior, a timestamp
parse failure inside an entry of the `data` array does NOT abort the
decode with a parse error: the loop's `return nil` makes the decode
report success with the entries accumulated so far (an empty list when
the first entry is bad, a partial list otherwise), in both
`intensityResponse.UnmarshalJSON` and `statisticsResponse.UnmarshalJSON`. -/
theorem C1_timestamp_parse_failure_is_silent_success :
    intensityResponse.UnmarshalJSON c1BadToBody = .ok (.ok [])
    ∧ intensityResponse.UnmarshalJSON c1PartialBody
        = .ok (.ok [⟨⟨2018, 1, 20, 12, 0, 0⟩, ⟨2018, 1, 20, 12, 30, 0⟩, 50, 49, "low"⟩])
    ∧ statisticsResponse.UnmarshalJSON c1BadStatsBody = .ok (.ok []) :=
  ⟨rfl, rfl, rfl⟩

/-- Claim C2: for all instants, `from < to` with a span of at most 30
days passes the range validation of `GetIntensityBetween`,
`GetStatistics` and `GetStatisticsInBlocks`; `from ≥ to` fails all three
with the invalid-range error; a span above 30 days fails all three with
the range-too-large error.  In the embedding `.ok ()` of the validation
is exactly "control reaches the network call" (resp. the block-size check
for `GetStatisticsInBlocks`), so a validation error means no network call
is attempted. -/
theorem C2_range_validation (fromT toT : Int) :
    (fromT < toT → toT - fromT ≤ maxRangeNs →
      GetIntensityBetween.validate fromT toT = .ok ()
      ∧ GetStatistics.validate fromT toT = .ok ()
      ∧ GetStatisticsInBlocks.rangeCheck fromT toT = .ok ())
    ∧ (¬ fromT < toT →
      GetIntensityBetween.validate fromT toT = .error (.invalidRange fromT toT)
      ∧ GetStatistics.validate fromT toT = .error (.invalidRange fromT toT)
      ∧ GetStatisticsInBlocks.rangeCheck fromT toT = .error (.invalidRange fromT toT))
    ∧ (toT - fromT > maxRangeNs →
      GetIntensityBetween.validate fromT toT = .error (.rangeTooLarge fromT toT)
      ∧ GetStatistics.validate fromT toT = .error (.rangeTooLarge fromT toT)
      ∧ GetStatisticsInBlocks.rangeCheck fromT toT = .error (.rangeTooLarge fromT toT)) := by
  unfold GetIntensityBetween.validate GetStatistics.validate GetStatisticsInBlocks.rangeCheck
      maxRangeNs nsPerHour
  refine ⟨fun h1 h2 => ?_, fun h1 => ?_, fun h2 => ?_⟩ <;>
    refine ⟨?_, ?_, ?_⟩ <;> split_ifs <;> first | rfl | (exfalso; omega)

/-- Witness for C2 at concrete instants: a one-hour span passes, an empty
span fails with the invalid-range error, and a span one nanosecond above
30 days fails with the range-too-large error. -/
theorem C2_range_validation_witness :
    GetIntensityBetween.validate 0 3600000000000 = .ok ()
    ∧ GetStatistics.validate 5 5 = .error (.invalidRange 5 5)
    ∧ GetStatisticsInBlocks.rangeCheck 0 2592000000000001
        = .error (.rangeTooLarge 0 2592000000000001) :=
  ⟨((C2_range_validation 0 3600000000000).1 (by decide) (by decide)).1,
   ((C2_range_validation 5 5).2.1 (by decide)).2.1,
   ((C2_range_validation 0 2592000000000001).2.2 (by decide)).2.2⟩

/-- A body whose `data` array entry has a non-string `to` field. -/
def c3BadToTypeBody : JsonVal := .obj [("data", .arr [.obj [("to", .num 3)]])]

/-- A body whose entry has a non-string `index` field. -/
def c3BadIndexBody : JsonVal := .obj [("data", .arr [.obj [
  ("from", .str "2018-01-20T12:00Z"), ("to", .str "2018-01-20T12:30Z"),
  ("intensity", .obj [("index", .num 2)])]])]

/-- Claim C3 (code bug): the decoders do not return an error value on
every malformed body — unchecked Go type assertions make them panic when
`data` is not an array, when an entry's `to` or `index` is not a string,
when `error` is not an object, or when `error.code` is missing, and the
panic propagates through the public operations. -/
theorem C3_decode_panics_on_bad_shapes :
    intensityResponse.UnmarshalJSON (.obj [("data", .num 5)]) = .panicked
    ∧ intensityResponse.UnmarshalJSON c3BadToTypeBody = .panicked
    ∧ intensityResponse.UnmarshalJSON c3BadIndexBody = .panicked
    ∧ intensityResponse.UnmarshalJSON (.obj [("error", .num 3)]) = .panicked
    ∧ intensityResponse.UnmarshalJSON (.obj [("error", .obj [])]) = .panicked
    ∧ intensityResponse.UnmarshalJSON
        (.obj [("error", .obj [("code", .str "400"), ("message", .num 7)])]) = .panicked
    ∧ statisticsResponse.UnmarshalJSON (.obj [("data", .str "x")]) = .panicked
    ∧ GetIntensityFactors.decode (.obj [("data", .bool true)]) = .panicked
    ∧ GetIntensityForTimePeriod.onBody (.obj [("data", .num 5)]) = .panicked
    ∧ GetCurrentIntensity.onBody (.obj [("data", .num 5)]) = .panicked
    ∧ GetStatistics.onBody 0 3600000000000 (.obj [("data", .str "x")]) = .panicked :=
  ⟨rfl, rfl, rfl, rfl, rfl, rfl, rfl, rfl, rfl, rfl, rfl⟩

/-- A fuel-mix factors body with all fourteen keys present and numeric. -/
def factorsFullBody : JsonVal := .obj [("data", .arr [.obj [
  ("Biomass", .num 120), ("Coal", .num 937), ("Dutch Imports", .num 474),
  ("French Imports", .num 53), ("Gas (Combined Cycle)", .num 394),
  ("Gas (Open Cycle)", .num 651), ("Hydro", .num 0), ("Irish Imports", .num 458),
  ("Nuclear", .num 0), ("Oil", .num 935), ("Other", .num 300),
  ("Pumped Storage", .num 0), ("Solar", .num 0), ("Wind", .num 0)]])]

/-- The same fuel-mix factors body with the `Biomass` key omitted. -/
def factorsMissingBiomassBody : JsonVal := .obj [("data", .arr [.obj [
  ("Coal", .num 937), ("Dutch Imports", .num 474),
  ("French Imports", .num 53), ("Gas (Combined Cycle)", .num 394),
  ("Gas (Open Cycle)", .num 651), ("Hydro", .num 0), ("Irish Imports", .num 458),
  ("Nuclear", .num 0), ("Oil", .num 935), ("Other", .num 300),
  ("Pumped Storage", .num 0), ("Solar", .num 0), ("Wind", .num 0)]])]

/-- Claim C4 (code bug): `GetIntensityFactors` does require exactly one
object in `data` (zero entries yield the unexpected-entry-count error) and
succeeds with every field populated when all fourteen exactly-matched keys
are present — but when a key is missing the decode does not report an
error: the nil-interface type assertion `factorDict[key].(float64)`
panics. -/
theorem C4_factors_missing_key_panics :
    GetIntensityFactors.decode factorsFullBody
      = .ok (.ok ⟨120, 937, 474, 53, 458, 394, 651, 0, 0, 935, 300, 0, 0, 0⟩)
    ∧ GetIntensityFactors.decode factorsMissingBiomassBody = .panicked
    ∧ GetIntensityFactors.decode (.obj [("data", .arr [])])
      = .ok (.error (.unexpectedEntryCount (.obj [("data", .arr [])]))) :=
  ⟨rfl, rfl, rfl⟩

/-- Claim C5: `GetIntensityForDayAndSettlementPeriod` rejects every
settlement period outside `[1, 48]` with the invalid-parameter error
before any network call (in particular 0 and 49), and passes validation
(`.ok ()` means control reaches the HTTP GET) on all of `1..48`. -/
theorem C5_settlement_period_validation (p : Int) :
    (p < 1 ∨ p > 48 →
      GetIntensityForDayAndSettlementPeriod.validate p
        = .error (.invalidSettlementPeriod p))
    ∧ (1 ≤ p → p ≤ 48 →
      GetIntensityForDayAndSettlementPeriod.validate p = .ok ())
    ∧ GetIntensityForDayAndSettlementPeriod.validate 0
        = .error (.invalidSettlementPeriod 0)
    ∧ GetIntensityForDayAndSettlementPeriod.validate 49
        = .error (.invalidSettlementPeriod 49) := by
  unfold GetIntensityForDayAndSettlementPeriod.validate
  refine ⟨fun h => if_pos h, fun h1 h2 => if_neg (by omega), rfl, rfl⟩

/-- Witness for C5 at concrete settlement periods 5 and 50. -/
theorem C5_settlement_period_validation_witness :
    GetIntensityForDayAndSettlementPeriod.validate 5 = .ok ()
    ∧ GetIntensityForDayAndSettlementPeriod.validate 50
        = .error (.invalidSettlementPeriod 50) :=
  ⟨(C5_settlement_period_validation 5).2.1 (by decide) (by decide),
   (C5_settlement_period_validation 50).1 (by decide)⟩

/-- Claim C6: with a valid range, `GetStatisticsInBlocks` truncates the
block size to whole hours (`int(blockSize.Hours())`, i.e. truncating
division by an hour's nanoseconds) and requires the result to lie in
`[1, 24]`, failing with the invalid-block-size error before any network
call otherwise; `3h59m` truncates to 3 (valid) and `59m` truncates to 0
(invalid), and any duration truncating above 24 hours is invalid. -/
theorem C6_block_size_validation (fromT toT blockSize : Int)
    (hr : fromT < toT) (hs : toT - fromT ≤ maxRangeNs) :
    (1 ≤ blockSizeHoursOf blockSize → blockSizeHoursOf blockSize ≤ 24 →
      GetStatisticsInBlocks.validate fromT toT blockSize = .ok ())
    ∧ (blockSizeHoursOf blockSize < 1 ∨ blockSizeHoursOf blockSize > 24 →
      GetStatisticsInBlocks.validate fromT toT blockSize
        = .error (.invalidBlockSize blockSize))
    ∧ blockSizeHoursOf (14340 * 1000000000) = 3
    ∧ blockSizeHoursOf (3540 * 1000000000) = 0 := by
  unfold maxRangeNs nsPerHour at hs
  have hrc : GetStatisticsInBlocks.rangeCheck fromT toT = .ok () := by
    unfold GetStatisticsInBlocks.rangeCheck nsPerHour
    rw [if_neg (by omega), if_neg (by omega)]
  refine ⟨fun h1 h2 => ?_, fun h => ?_, by decide, by decide⟩
  · simp only [GetStatisticsInBlocks.validate, hrc]
    rw [if_neg (by omega)]
  · simp only [GetStatisticsInBlocks.validate, hrc]
    rw [if_pos h]

/-- Witness for C6 over a one-day range: a `3h59m` block passes, a `59m`
block and a `25h` block fail. -/
theorem C6_block_size_validation_witness :
    GetStatisticsInBlocks.validate 0 86400000000000 14340000000000 = .ok ()
    ∧ GetStatisticsInBlocks.validate 0 86400000000000 3540000000000
        = .error (.invalidBlockSize 3540000000000)
    ∧ GetStatisticsInBlocks.validate 0 86400000000000 90000000000000
        = .error (.invalidBlockSize 90000000000000) :=
  ⟨(C6_block_size_validation 0 86400000000000 14340000000000 (by decide) (by decide)).1
      (by decide) (by decide),
   (C6_block_size_validation 0 86400000000000 3540000000000 (by decide) (by decide)).2.1
      (by decide),
   (C6_block_size_validation 0 86400000000000 90000000000000 (by decide) (by decide)).2.1
      (by decide)⟩

/-- The success envelope from the claim:
`data: [{from, to, intensity:{forecast:50, actual:null, index:"low"}}]`. -/
def c7IntensityBody : JsonVal := .obj [("data", .arr [.obj [
  ("from", .str "2018-01-20T12:00Z"), ("to", .str "2018-01-20T12:30Z"),
  ("intensity", .obj [("forecast", .num 50), ("actual", .null), ("index", .str "low")])]])]

/-- A statistics success envelope whose entry carries only `average` and
`index` (so `max` is absent) and a JSON-null `min`. -/
def c7StatisticsBody : JsonVal := .obj [("data", .arr [.obj [
  ("from", .str "2018-01-20T12:00Z"), ("to", .str "2018-01-20T13:00Z"),
  ("intensity", .obj [("average", .num 100), ("min", .null),
    ("index", .str "moderate")])]])]

/-- Claim C7: `unmarshalInt` maps an absent key and a JSON-null value to
its default without failing, the decoders call it with default `-1` for
`forecast`/`actual` and `max`/`average`/`min`, and decoding the claim's
envelope yields exactly one record with `Forecast = 50` and the `-1`
sentinel for `Actual` (similarly for absent `max` and null `min` in a
statistics envelope). -/
theorem C7_absent_or_null_numeric_defaults :
    (∀ d : Int, unmarshalInt none d = .ok d ∧ unmarshalInt (some .null) d = .ok d)
    ∧ intensityResponse.UnmarshalJSON c7IntensityBody
      = .ok (.ok [⟨⟨2018, 1, 20, 12, 0, 0⟩, ⟨2018, 1, 20, 12, 30, 0⟩, 50, -1, "low"⟩])
    ∧ statisticsResponse.UnmarshalJSON c7StatisticsBody
      = .ok (.ok [⟨⟨2018, 1, 20, 12, 0, 0⟩, ⟨2018, 1, 20, 13, 0, 0⟩, -1, 100, -1, "moderate"⟩]) :=
  ⟨fun _ => ⟨rfl, rfl⟩, rfl, rfl⟩

/-- Witness for C7 at the concrete default `-1`. -/
theorem C7_absent_or_null_numeric_defaults_witness :
    unmarshalInt none (-1) = .ok (-1) ∧ unmarshalInt (some .null) (-1) = .ok (-1) :=
  C7_absent_or_null_numeric_defaults.1 (-1)

/-- Claim C8 counterexample: in the body `{"data": null}` the top-level
`data` field IS present, yet the decoder does not decode entries as a
success — it returns the malformed-response failure, because Go's map
indexing conflates a JSON-null value with an absent key. -/
theorem C8_data_null_counterexample :
    lookupGo [("data", JsonVal.null)] "data" = some .null
    ∧ intensityResponse.UnmarshalJSON (.obj [("data", .null)])
      = .ok (.error (.malformedResponse (.obj [("data", .null)]))) :=
  ⟨rfl, rfl⟩

/-- Claim C8 as amended: "present" must be read as "present with a
non-null value" (a JSON-null `data` or `error` is treated as absent).
Then every decoded object body falls in exactly one of three shapes:
`data` non-nil takes the success path (a panic while decoding entries or
a success with the entry list, never an error-envelope or malformed
failure); `data` nil and `error` non-nil fails with the API error built
from `error.code` and `error.message` (a panic when they are not strings)
and yields no records; both nil fails with the malformed-response error
carrying the raw body. -/
theorem C8_envelope_classification (decoded : List (String × JsonVal)) :
    (goIsNil (lookupGo decoded "data") = true →
     goIsNil (lookupGo decoded "error") = true →
      intensityResponse.UnmarshalJSON (.obj decoded)
        = .ok (.error (.malformedResponse (.obj decoded)))
      ∧ statisticsResponse.UnmarshalJSON (.obj decoded)
        = .ok (.error (.malformedResponse (.obj decoded))))
    ∧ (goIsNil (lookupGo decoded "data") = true →
       goIsNil (lookupGo decoded "error") = false →
      (intensityResponse.UnmarshalJSON (.obj decoded) = .panicked
        ∨ ∃ c m, intensityResponse.UnmarshalJSON (.obj decoded)
            = .ok (.error (.apiError c m)))
      ∧ (∀ em c m, lookupGo decoded "error" = some (.obj em) →
          lookupGo em "code" = some (.str c) →
          lookupGo em "message" = some (.str m) →
          intensityResponse.UnmarshalJSON (.obj decoded) = .ok (.error (.apiError c m))
          ∧ statisticsResponse.UnmarshalJSON (.obj decoded) = .ok (.error (.apiError c m))))
    ∧ (goIsNil (lookupGo decoded "data") = false →
      (intensityResponse.UnmarshalJSON (.obj decoded) = .panicked
        ∨ ∃ es, intensityResponse.UnmarshalJSON (.obj decoded) = .ok (.ok es))
      ∧ (statisticsResponse.UnmarshalJSON (.obj decoded) = .panicked
        ∨ ∃ ss, statisticsResponse.UnmarshalJSON (.obj decoded) = .ok (.ok ss))) := by
  refine ⟨fun h1 h2 => ?_, fun h1 h2 => ⟨?_, ?_⟩, fun h1 => ⟨?_, ?_⟩⟩
  · constructor <;> simp [intensityResponse.UnmarshalJSON,
      statisticsResponse.UnmarshalJSON, h1, h2]
  · simp only [intensityResponse.UnmarshalJSON, h1, h2, if_true, Bool.false_eq_true,
      if_false]
    rcases hl : lookupGo decoded "error" with _ | v
    · simp [hl]
    · cases v with
      | obj em =>
        rcases hc : lookupGo em "code" with _ | cv
        · simp [hl, hc]
        · cases cv with
          | str c =>
            rcases hm : lookupGo em "message" with _ | mv
            · simp [hl, hc, hm]
            · cases mv with
              | str m => exact Or.inr ⟨c, m, by simp [hl, hc, hm]⟩
              | null => simp [hl, hc, hm]
              | bool b => simp [hl, hc, hm]
              | num n => simp [hl, hc, hm]
              | arr xs => simp [hl, hc, hm]
              | obj o => simp [hl, hc, hm]
          | null => simp [hl, hc]
          | bool b => simp [hl, hc]
          | num n => simp [hl, hc]
          | arr xs => simp [hl, hc]
          | obj o => simp [hl, hc]
      | null => rw [hl] at h2; simp [goIsNil] at h2
      | bool b => simp [hl]
      | num n => simp [hl]
      | str s => simp [hl]
      | arr xs => simp [hl]
  · intro em c m hl hc hm
    constructor
    · simp only [intensityResponse.UnmarshalJSON, h1, h2, if_true,
        Bool.false_eq_true, if_false]
      simp [hl, hc, hm]
    · simp only [statisticsResponse.UnmarshalJSON, h1, h2, if_true,
        Bool.false_eq_true, if_false]
      simp [hl, hc, hm]
  · simp only [intensityResponse.UnmarshalJSON, h1, Bool.false_eq_true, if_false]
    rcases hl : lookupGo decoded "data" with _ | v
    · rw [hl] at h1; simp [goIsNil] at h1
    · cases v with
      | arr xs =>
        rcases hloop : decodeIntensityLoop xs [] with _ | es
        · simp [hl, hloop]
        · exact Or.inr ⟨es, by simp [hl, hloop]⟩
      | null => rw [hl] at h1; simp [goIsNil] at h1
      | bool b => simp [hl]
      | num n => simp [hl]
      | str s => simp [hl]
      | obj o => simp [hl]
  · simp only [statisticsResponse.UnmarshalJSON, h1, Bool.false_eq_true, if_false]
    rcases hl : lookupGo decoded "data" with _ | v
    · rw [hl] at h1; simp [goIsNil] at h1
    · cases v with
      | arr xs =>
        rcases hloop : decodeStatisticsLoop xs [] with _ | ss
        · simp [hl, hloop]
        · exact Or.inr ⟨ss, by simp [hl, hloop]⟩
      | null => rw [hl] at h1; simp [goIsNil] at h1
      | bool b => simp [hl]
      | num n => simp [hl]
      | str s => simp [hl]
      | obj o => simp [hl]

/-- Witness for C8 at concrete bodies: an empty object is malformed, and
the error envelope `{"error":{"code":"400","message":"bad request"}}`
yields the API error with that code and message. -/
theorem C8_envelope_classification_witness :
    intensityResponse.UnmarshalJSON (.obj [])
      = .ok (.error (.malformedResponse (.obj [])))
    ∧ intensityResponse.UnmarshalJSON
        (.obj [("error", .obj [("code", .str "400"), ("message", .str "bad request")])])
      = .ok (.error (.apiError "400" "bad request")) :=
  ⟨((C8_envelope_classification []) |>.1 rfl rfl).1,
   (((C8_envelope_classification
        [("error", .obj [("code", .str "400"), ("message", .str "bad request")])]).2.1
      rfl rfl).2 [("code", .str "400"), ("message", .str "bad request")]
      "400" "bad request" rfl rfl rfl).1⟩

/-- Claim C9: on the singleton endpoints (`GetIntensityForTimePeriod`,
`GetCurrentIntensity`, `GetIntensityForDayAndSettlementPeriod` with a
valid period, `GetStatistics` with a valid range), whenever the decode
yields an entry list of length other than 1 the operation fails with the
unexpected-entry-count error, and whenever it yields exactly one entry
that entry is returned. -/
theorem C9_singleton_endpoints (body sbody : JsonVal) (es : List Intensity)
    (ss : List Statistics) (p fromT toT : Int)
    (hdec : intensityResponse.UnmarshalJSON body = .ok (.ok es))
    (hsdec : statisticsResponse.UnmarshalJSON sbody = .ok (.ok ss))
    (hp : 1 ≤ p ∧ p ≤ 48)
    (hrange : fromT < toT ∧ toT - fromT ≤ maxRangeNs) :
    (es.length ≠ 1 →
      GetIntensityForTimePeriod.onBody body = .ok (.error (.unexpectedEntryCount body))
      ∧ GetCurrentIntensity.onBody body = .ok (.error (.unexpectedEntryCount body))
      ∧ GetIntensityForDayAndSettlementPeriod.onBody p body
          = .ok (.error (.unexpectedEntryCount body)))
    ∧ (∀ e, es = [e] →
      GetIntensityForTimePeriod.onBody body = .ok (.ok e)
      ∧ GetCurrentIntensity.onBody body = .ok (.ok e)
      ∧ GetIntensityForDayAndSettlementPeriod.onBody p body = .ok (.ok e))
    ∧ (ss.length ≠ 1 →
      GetStatistics.onBody fromT toT sbody = .ok (.error (.unexpectedEntryCount sbody)))
    ∧ (∀ s, ss = [s] → GetStatistics.onBody fromT toT sbody = .ok (.ok s)) := by
  have hpv : GetIntensityForDayAndSettlementPeriod.validate p = .ok () := by
    unfold GetIntensityForDayAndSettlementPeriod.validate
    rw [if_neg (by omega)]
  have hrv : GetStatistics.validate fromT toT = .ok () := by
    unfold GetStatistics.validate nsPerHour
    unfold maxRangeNs nsPerHour at hrange
    rw [if_neg (by omega), if_neg (by omega)]
  refine ⟨fun hlen => ?_, fun e he => ?_, fun hlen => ?_, fun s hs => ?_⟩
  · refine ⟨?_, ?_, ?_⟩ <;>
      simp only [GetIntensityForTimePeriod.onBody, GetCurrentIntensity.onBody,
        GetIntensityForDayAndSettlementPeriod.onBody, hpv, hdec] <;>
      (match es, hlen with
       | [], _ => rfl
       | _ :: _ :: _, _ => rfl
       | [e], hlen => exact absurd rfl hlen)
  · subst he
    refine ⟨?_, ?_, ?_⟩ <;>
      simp [GetIntensityForTimePeriod.onBody, GetCurrentIntensity.onBody,
        GetIntensityForDayAndSettlementPeriod.onBody, hpv, hdec]
  · simp only [GetStatistics.onBody, hrv, hsdec]
    match ss, hlen with
    | [], _ => rfl
    | _ :: _ :: _, _ => rfl
    | [s], hlen => exact absurd rfl hlen
  · subst hs
    simp [GetStatistics.onBody, hrv, hsdec]

/-- An intensity success envelope with two well-formed entries. -/
def c9TwoEntriesBody : JsonVal := .obj [("data", .arr [
  .obj [("from", .str "2018-01-20T12:00Z"), ("to", .str "2018-01-20T12:30Z"),
    ("intensity", .obj [("forecast", .num 50), ("actual", .num 49), ("index", .str "low")])],
  .obj [("from", .str "2018-01-20T12:30Z"), ("to", .str "2018-01-20T13:00Z"),
    ("intensity", .obj [("forecast", .num 60), ("actual", .num 61), ("index", .str "moderate")])]])]

/-- A statistics success envelope with exactly one well-formed entry. -/
def c9OneStatsBody : JsonVal := .obj [("data", .arr [.obj [
  ("from", .str "2018-01-20T12:00Z"), ("to", .str "2018-01-21T12:00Z"),
  ("intensity", .obj [("max", .num 60), ("average", .num 55), ("min", .num 50),
    ("index", .str "moderate")])]])]

/-- Witness for C9: the two-entry body makes `GetIntensityForTimePeriod`
fail with the unexpected-entry-count error, and the one-entry statistics
body makes `GetStatistics` return the single record. -/
theorem C9_singleton_endpoints_witness :
    GetIntensityForTimePeriod.onBody c9TwoEntriesBody
      = .ok (.error (.unexpectedEntryCount c9TwoEntriesBody))
    ∧ GetStatistics.onBody 0 3600000000000 c9OneStatsBody
      = .ok (.ok ⟨⟨2018, 1, 20, 12, 0, 0⟩, ⟨2018, 1, 21, 12, 0, 0⟩, 60, 55, 50, "moderate"⟩) :=
  ⟨((C9_singleton_endpoints c9TwoEntriesBody c9OneStatsBody
      [⟨⟨2018, 1, 20, 12, 0, 0⟩, ⟨2018, 1, 20, 12, 30, 0⟩, 50, 49, "low"⟩,
       ⟨⟨2018, 1, 20, 12, 30, 0⟩, ⟨2018, 1, 20, 13, 0, 0⟩, 60, 61, "moderate"⟩]
      [⟨⟨2018, 1, 20, 12, 0, 0⟩, ⟨2018, 1, 21, 12, 0, 0⟩, 60, 55, 50, "moderate"⟩]
      1 0 3600000000000 rfl rfl (by decide) (by decide)).1 (by decide)).1,
   ((C9_singleton_endpoints c9TwoEntriesBody c9OneStatsBody
      [⟨⟨2018, 1, 20, 12, 0, 0⟩, ⟨2018, 1, 20, 12, 30, 0⟩, 50, 49, "low"⟩,
       ⟨⟨2018, 1, 20, 12, 30, 0⟩, ⟨2018, 1, 20, 13, 0, 0⟩, 60, 61, "moderate"⟩]
      [⟨⟨2018, 1, 20, 12, 0, 0⟩, ⟨2018, 1, 21, 12, 0, 0⟩, 60, 55, 50, "moderate"⟩]
      1 0 3600000000000 rfl rfl (by decide) (by decide)).2.2.2
      ⟨⟨2018, 1, 20, 12, 0, 0⟩, ⟨2018, 1, 21, 12, 0, 0⟩, 60, 55, 50, "moderate"⟩ rfl)⟩

/-- When every entry of the `data` array decodes cleanly, the intensity
loop appends exactly one record per entry, in order. -/
theorem decodeIntensityLoop_all_ok :
    ∀ (data : List JsonVal) (acc : List Intensity),
    (∀ v ∈ data, ∃ e, decodeIntensityEntryStep v = .ok e) →
    decodeIntensityLoop data acc = .ok (acc ++ data.map intensityEntryOf) := by
  intro data
  induction data with
  | nil => intro acc _; simp [decodeIntensityLoop]
  | cons v rest ih =>
    intro acc h
    obtain ⟨e, he⟩ := h v (List.mem_cons_self v rest)
    have hof : intensityEntryOf v = e := by simp [intensityEntryOf, he]
    have hstep : decodeIntensityLoop (v :: rest) acc
        = decodeIntensityLoop rest (acc ++ [e]) := by
      simp [decodeIntensityLoop, he]
    rw [hstep, ih (acc ++ [e]) (fun w hw => h w (List.mem_cons_of_mem v hw))]
    simp [hof]

/-- When every entry of the `data` array decodes cleanly, the statistics
loop appends exactly one record per entry, in order. -/
theorem decodeStatisticsLoop_all_ok :
    ∀ (data : List JsonVal) (acc : List Statistics),
    (∀ v ∈ data, ∃ e, decodeStatisticsEntryStep v = .ok e) →
    decodeStatisticsLoop data acc = .ok (acc ++ data.map statisticsEntryOf) := by
  intro data
  induction data with
  | nil => intro acc _; simp [decodeStatisticsLoop]
  | cons v rest ih =>
    intro acc h
    obtain ⟨e, he⟩ := h v (List.mem_cons_self v rest)
    have hof : statisticsEntryOf v = e := by simp [statisticsEntryOf, he]
    have hstep : decodeStatisticsLoop (v :: rest) acc
        = decodeStatisticsLoop rest (acc ++ [e]) := by
      simp [decodeStatisticsLoop, he]
    rw [hstep, ih (acc ++ [e]) (fun w hw => h w (List.mem_cons_of_mem v hw))]
    simp [hof]

/-- Claim C10: when the `data` array of a success envelope holds only
well-formed entries, both decoders succeed with one output record per
JSON entry, same length and same order — the i-th record is the one
built from the i-th entry. -/
theorem C10_entry_list_length_and_order (decoded sdecoded : List (String × JsonVal))
    (data sdata : List JsonVal)
    (hdata : lookupGo decoded "data" = some (.arr data))
    (hwf : ∀ v ∈ data, ∃ e, decodeIntensityEntryStep v = .ok e)
    (hsdata : lookupGo sdecoded "data" = some (.arr sdata))
    (hswf : ∀ v ∈ sdata, ∃ e, decodeStatisticsEntryStep v = .ok e) :
    (intensityResponse.UnmarshalJSON (.obj decoded)
        = .ok (.ok (data.map intensityEntryOf))
      ∧ (data.map intensityEntryOf).length = data.length
      ∧ ∀ i (hi : i < data.length) (hi2 : i < (data.map intensityEntryOf).length),
          (data.map intensityEntryOf).get ⟨i, hi2⟩ = intensityEntryOf (data.get ⟨i, hi⟩))
    ∧ (statisticsResponse.UnmarshalJSON (.obj sdecoded)
        = .ok (.ok (sdata.map statisticsEntryOf))
      ∧ (sdata.map statisticsEntryOf).length = sdata.length
      ∧ ∀ i (hi : i < sdata.length) (hi2 : i < (sdata.map statisticsEntryOf).length),
          (sdata.map statisticsEntryOf).get ⟨i, hi2⟩ = statisticsEntryOf (sdata.get ⟨i, hi⟩)) := by
  refine ⟨⟨?_, by simp, ?_⟩, ⟨?_, by simp, ?_⟩⟩
  · simp only [intensityResponse.UnmarshalJSON, hdata, goIsNil, Bool.false_eq_true, if_false]
    rw [decodeIntensityLoop_all_ok data [] hwf]
    simp
  · intro i hi hi2
    simp [List.getElem_map]
  · simp only [statisticsResponse.UnmarshalJSON, hsdata, goIsNil, Bool.false_eq_true, if_false]
    rw [decodeStatisticsLoop_all_ok sdata [] hswf]
    simp
  · intro i hi hi2
    simp [List.getElem_map]

/-- The `data` array of the C10 witness: two well-formed entries. -/
def c10Data : List JsonVal := [
  .obj [("from", .str "2018-03-01T09:00Z"), ("to", .str "2018-03-01T09:30Z"),
    ("intensity", .obj [("forecast", .num 80), ("actual", .num 82), ("index", .str "high")])],
  .obj [("from", .str "2018-03-01T09:30Z"), ("to", .str "2018-03-01T10:00Z"),
    ("intensity", .obj [("forecast", .num 75), ("actual", .null), ("index", .str "moderate")])]]

/-- The `data` array of the statistics half of the C10 witness. -/
def c10StatsData : List JsonVal := [
  .obj [("from", .str "2018-03-01T09:00Z"), ("to", .str "2018-03-02T09:00Z"),
    ("intensity", .obj [("max", .num 90), ("average", .num 70), ("min", .num 40),
      ("index", .str "moderate")])]]

/-- Witness for C10: the two-entry envelope decodes to exactly two
records in entry order, and the one-entry statistics envelope to one. -/
theorem C10_entry_list_length_and_order_witness :
    intensityResponse.UnmarshalJSON (.obj [("data", .arr c10Data)])
      = .ok (.ok [⟨⟨2018, 3, 1, 9, 0, 0⟩, ⟨2018, 3, 1, 9, 30, 0⟩, 80, 82, "high"⟩,
          ⟨⟨2018, 3, 1, 9, 30, 0⟩, ⟨2018, 3, 1, 10, 0, 0⟩, 75, -1, "moderate"⟩])
    ∧ statisticsResponse.UnmarshalJSON (.obj [("data", .arr c10StatsData)])
      = .ok (.ok [⟨⟨2018, 3, 1, 9, 0, 0⟩, ⟨2018, 3, 2, 9, 0, 0⟩, 90, 70, 40, "moderate"⟩]) := by
  have h := C10_entry_list_length_and_order [("data", .arr c10Data)]
    [("data", .arr c10StatsData)] c10Data c10StatsData rfl
    (by intro v hv; simp [c10Data] at hv; rcases hv with rfl | rfl <;> exact ⟨_, rfl⟩)
    rfl
    (by intro v hv; simp [c10StatsData] at hv; subst hv; exact ⟨_, rfl⟩)
  exact ⟨h.1.1, h.2.1⟩
